import Mathlib

/-!
Shallow embedding of the core of the `zero2prod` newsletter service
(Rust/axum/sqlx), together with theorems checking the natural-language
specification against the code.

Conventions of the embedding:
* UUIDs are modelled as `Nat`; byte sequences as `List Nat` (one entry per
  byte, values < 256 where relevant); SQL tables as Lean lists of row
  structures, where `List.find?` models `fetch_optional`, `List.map` with a
  conditional update models SQL `UPDATE ... WHERE`, and appending models
  `INSERT`.
* External capabilities (the Argon2 hasher of the `argon2` crate, the
  `validator` crate's email check, the outbound email transport, the
  `unicode-segmentation` grapheme counter) are parameters of the embedded
  functions, mirroring the fact that the source treats them as injected
  collaborators.
* Fallible Rust functions returning `Result` become `Except String` /
  `Option`; an in-flight `sqlx` transaction whose only pending statement is
  the idempotency `INSERT` is represented by the `IdemTxn` value carrying
  the key columns of the uncommitted row.
-/

namespace ZeroTwoProd

/-! ## HTTP responses

`axum::response::Response` restricted to what the idempotency layer
persists: status code, the header sequence in iteration order (name and
raw value bytes, duplicates preserved), and the body bytes. -/

structure HttpResponse where
  status : Nat
  headers : List (String × List Nat)
  body : List Nat
deriving Repr, DecidableEq

/-- Byte predicate of `http::HeaderValue::to_str`: the conversion to `&str`
performed by `save_response` succeeds exactly when every byte is visible
ASCII (32..126) or a horizontal tab. -/
def isVisibleAsciiByte (b : Nat) : Bool :=
  (32 ≤ b && b < 127) || b == 9

/-- Byte predicate of `http::HeaderValue::from_bytes` (the `try_into` read
path of `get_saved_response`): any byte except control characters, with tab
allowed. -/
def isLegalValueByte (b : Nat) : Bool :=
  (32 ≤ b && b != 127) || b == 9

/-- Character set of a (lowercased) `http::HeaderName` token. Names read
back by `get_saved_response` come from `HeaderName::as_str`, which is
always a lowercase token, so the embedding checks membership in that set. -/
def isHeaderNameChar (c : Char) : Bool :=
  (97 ≤ c.toNat && c.toNat ≤ 122) || (48 ≤ c.toNat && c.toNat ≤ 57) ||
    c == '!' || c == '#' || c == '$' || c == '%' || c == '&' ||
    c == '*' || c == '+' || c == '-' || c == '.' || c == '^' ||
    c == '_' || c == '|' || c == '~'

/-- Validity of a header-name string for `HeaderName::try_from` on the read
path (restricted to lowercase names, the only ones `as_str` can produce). -/
def isValidHeaderName (s : String) : Bool :=
  !s.isEmpty && s.toList.all isHeaderNameChar

/-! ## Idempotency layer (`src/idempotency/persistence.rs`) -/

/-- One element of the Postgres `header_pair[]` column. -/
structure HeaderPairRecord where
  name : String
  value : List Nat
deriving Repr, DecidableEq

/-- A row of the `idempotency` table: key columns plus the three nullable
response columns. -/
structure IdempotencyRow where
  user_id : Nat
  idempotency_key : String
  response_status_code : Option Int
  response_headers : Option (List HeaderPairRecord)
  response_body : Option (List Nat)
deriving Repr, DecidableEq

/-- `SELECT ... FROM idempotency WHERE user_id = $1 AND idempotency_key = $2`
via `fetch_optional`: the first matching row. -/
def findIdemRow (db : List IdempotencyRow) (uid : Nat) (key : String) :
    Option IdempotencyRow :=
  db.find? (fun r => r.user_id == uid && r.idempotency_key == key)

/-- The open transaction returned by `try_processing`: its single pending
statement is the `INSERT` of the idempotency row with only the key columns
populated. -/
structure IdemTxn where
  user_id : Nat
  idempotency_key : String
deriving Repr, DecidableEq

/-- `response_head.status.as_u16() as i16`: the status code as stored in the
`smallint` column. -/
def statusToI16 (s : Nat) : Int :=
  let w := s % 65536
  if w < 32768 then (w : Int) else (w : Int) - 65536

/-- Read path for the status column: `i16` → `u16` (`try_into`, failing on
negatives) → `StatusCode::from_u16` (failing outside 100..999). -/
def statusOfI16 (i : Int) : Option Nat :=
  if 0 ≤ i && i < 65536 then
    if 100 ≤ i.toNat && i.toNat < 1000 then some i.toNat else none
  else none

/-- Serialization of the header map performed by `save_response`: each value
must convert with `to_str` (visible ASCII), and the pairs keep their order. -/
def writeHeaders : List (String × List Nat) → Option (List HeaderPairRecord)
  | [] => some []
  | (n, v) :: rest =>
    if v.all isVisibleAsciiByte then
      (writeHeaders rest).map (fun l => ⟨n, v⟩ :: l)
    else none

/-- Read path of `get_saved_response` for the stored header pairs: each name
must parse as a `HeaderName` and each value as a `HeaderValue`; pairs are
appended to the response in storage order. -/
def readHeaders : List HeaderPairRecord → Option (List (String × List Nat))
  | [] => some []
  | r :: rest =>
    if isValidHeaderName r.name && r.value.all isLegalValueByte then
      (readHeaders rest).map (fun l => (r.name, r.value) :: l)
    else none

/-- Decoding of one fully fetched `idempotency` row into a `Response`. The
`sqlx` query annotates the three response columns as non-null (`!`), so a
NULL in any of them is a decode error, as is an out-of-range status or an
unparsable header pair. -/
def decodeIdemRow (r : IdempotencyRow) : Except String HttpResponse :=
  match r.response_status_code, r.response_headers, r.response_body with
  | some st, some hs, some b =>
    match statusOfI16 st with
    | none => .error "invalid status code"
    | some status =>
      match readHeaders hs with
      | none => .error "invalid header pair"
      | some headers => .ok { status := status, headers := headers, body := b }
  | _, _, _ => .error "saved response columns are NULL"

/-- `get_saved_response(pool, idempotency_key, user_id)`: fetch the row for
the key; absent → `Ok(None)`; present with NULL or undecodable response
columns → `Err`; otherwise the reconstructed response. -/
def get_saved_response (db : List IdempotencyRow) (key : String) (uid : Nat) :
    Except String (Option HttpResponse) :=
  match findIdemRow db uid key with
  | none => .ok none
  | some r => (decodeIdemRow r).map some

/-- `rows_affected` of the
`INSERT INTO idempotency ... ON CONFLICT DO NOTHING`: one row exactly when
no row with the primary key (`user_id`, `idempotency_key`) exists. -/
def insertRowsAffected (db : List IdempotencyRow) (uid : Nat) (key : String) :
    Nat :=
  if (findIdemRow db uid key).isNone then 1 else 0

/-- Outcome of `try_processing`. -/
inductive NextAction where
  | StartProcessing (tx : IdemTxn)
  | ReturnSavedResponse (resp : HttpResponse)
deriving Repr, DecidableEq

/-- `try_processing(pool, idempotency_key, user_id)`: open a transaction,
attempt the insert; on `rows_affected > 0` return the transaction, else
fetch the saved response (erroring when it is absent or its columns are
still NULL). -/
def try_processing (db : List IdempotencyRow) (key : String) (uid : Nat) :
    Except String NextAction :=
  if insertRowsAffected db uid key > 0 then
    .ok (.StartProcessing ⟨uid, key⟩)
  else
    match get_saved_response db key uid with
    | .error e => .error e
    | .ok none => .error "We expected a saved response, we did not find it"
    | .ok (some r) => .ok (.ReturnSavedResponse r)

/-- `save_response(transaction, idempotency_key, user_id, http_response)`:
serialize the response (failing when a header value is not `to_str`-safe,
in which case the transaction is dropped and nothing commits), then commit
the transaction's pending insert followed by the
`UPDATE idempotency SET ... WHERE user_id = $1 AND idempotency_key = $2`,
and hand back the response rebuilt from the original parts. -/
def save_response (db : List IdempotencyRow) (tx : IdemTxn) (key : String)
    (uid : Nat) (resp : HttpResponse) :
    Option (List IdempotencyRow × HttpResponse) :=
  match writeHeaders resp.headers with
  | none => none
  | some recs =>
    let inserted := db ++ [{ user_id := tx.user_id,
                             idempotency_key := tx.idempotency_key,
                             response_status_code := none,
                             response_headers := none,
                             response_body := none }]
    let updated := inserted.map (fun r =>
      if r.user_id == uid && r.idempotency_key == key then
        { r with response_status_code := some (statusToI16 resp.status),
                 response_headers := some recs,
                 response_body := some resp.body }
      else r)
    some (updated, resp)

/-! ## Helper lemmas -/

theorem find?_append_of_none {α : Type} (p : α → Bool) (l l2 : List α)
    (h : l.find? p = none) : (l ++ l2).find? p = l2.find? p := by
  induction l with
  | nil => rfl
  | cons a rest ih =>
    rw [List.find?] at h
    cases hpa : p a with
    | true => rw [hpa] at h; exact absurd h (by simp)
    | false =>
      rw [hpa] at h
      simpa [List.find?, hpa] using ih h

theorem map_id_of_find?_none {α : Type} (p : α → Bool) (f : α → α) (l : List α)
    (h : l.find? p = none) :
    l.map (fun r => if p r then f r else r) = l := by
  induction l with
  | nil => rfl
  | cons a rest ih =>
    rw [List.find?] at h
    cases hpa : p a with
    | true => rw [hpa] at h; exact absurd h (by simp)
    | false =>
      rw [hpa] at h
      simp [hpa, ih h]

theorem isLegalValueByte_of_isVisibleAsciiByte (b : Nat)
    (h : isVisibleAsciiByte b = true) : isLegalValueByte b = true := by
  simp only [isVisibleAsciiByte, Bool.or_eq_true, Bool.and_eq_true,
    decide_eq_true_eq, beq_iff_eq] at h
  simp only [isLegalValueByte, Bool.or_eq_true, Bool.and_eq_true,
    decide_eq_true_eq, beq_iff_eq, bne_iff_ne, ne_eq]
  omega

theorem all_legal_of_all_visible (v : List Nat)
    (h : v.all isVisibleAsciiByte = true) : v.all isLegalValueByte = true := by
  rw [List.all_eq_true] at h ⊢
  exact fun b hb => isLegalValueByte_of_isVisibleAsciiByte b (h b hb)

theorem statusOfI16_statusToI16 (s : Nat) (h1 : 100 ≤ s) (h2 : s < 1000) :
    statusOfI16 (statusToI16 s) = some s := by
  have hs : s % 65536 = s := Nat.mod_eq_of_lt (by omega)
  simp only [statusToI16, hs]
  rw [if_pos (by omega : s < 32768)]
  have h0 : (0 : Int) ≤ (s : Int) := Int.ofNat_nonneg s
  have h65 : (s : Int) < 65536 := by exact_mod_cast (show s < 65536 by omega)
  simp [statusOfI16, h0, h65, Int.toNat_natCast, h1, h2, hs]

theorem readHeaders_writeHeaders (hs : List (String × List Nat))
    (recs : List HeaderPairRecord)
    (hw : writeHeaders hs = some recs)
    (hn : hs.all (fun h => isValidHeaderName h.1) = true) :
    readHeaders recs = some hs := by
  induction hs generalizing recs with
  | nil =>
    simp only [writeHeaders, Option.some.injEq] at hw
    subst hw; rfl
  | cons h rest ih =>
    obtain ⟨n, v⟩ := h
    rw [List.all_cons, Bool.and_eq_true] at hn
    simp only [writeHeaders] at hw
    by_cases hv : v.all isVisibleAsciiByte = true
    · rw [if_pos hv] at hw
      rw [Option.map_eq_some'] at hw
      obtain ⟨l, hl, hrecs⟩ := hw
      subst hrecs
      simp only [readHeaders]
      rw [if_pos (by rw [Bool.and_eq_true]
                     exact ⟨hn.1, all_legal_of_all_visible v hv⟩)]
      rw [ih l hl hn.2]
      rfl
    · rw [if_neg hv] at hw
      exact absurd hw (by simp)

/-- Decoding the row written by `save_response` recovers the response. -/
theorem decodeIdemRow_saved (resp : HttpResponse) (recs : List HeaderPairRecord)
    (uid : Nat) (key : String)
    (hw : writeHeaders resp.headers = some recs)
    (hn : resp.headers.all (fun h => isValidHeaderName h.1) = true)
    (h1 : 100 ≤ resp.status) (h2 : resp.status < 1000) :
    decodeIdemRow { user_id := uid, idempotency_key := key,
                    response_status_code := some (statusToI16 resp.status),
                    response_headers := some recs,
                    response_body := some resp.body } = .ok resp := by
  simp only [decodeIdemRow, statusOfI16_statusToI16 resp.status h1 h2,
    readHeaders_writeHeaders resp.headers recs hw hn]

/-! ## Claim theorems for the idempotency layer -/

/-- Claim C2: for every user_id, idempotency key and HTTP response, after
`save_response(tx, key, user_id, resp)` commits (the transaction `tx` being
the one handed out by `try_processing`, which inserted the key row),
`get_saved_response(pool, key, user_id)` returns `Some` response that is
byte-identical to `resp`: same status code, same headers in the same order
with duplicates preserved, same body bytes. The header names are required
to be valid lowercase header names and the status a legal `StatusCode`,
which is an invariant of the `http::Response` type the Rust function
receives. -/
theorem save_response_get_saved_response_roundtrip
    (db : List IdempotencyRow) (key : String) (uid : Nat)
    (resp : HttpResponse) (tx : IdemTxn)
    (db' : List IdempotencyRow) (out : HttpResponse)
    (htx : try_processing db key uid = .ok (.StartProcessing tx))
    (hnames : resp.headers.all (fun h => isValidHeaderName h.1) = true)
    (h1 : 100 ≤ resp.status) (h2 : resp.status < 1000)
    (hsave : save_response db tx key uid resp = some (db', out)) :
    out = resp ∧ get_saved_response db' key uid = .ok (some resp) := by
  have hnone : findIdemRow db uid key = none := by
    cases hf : findIdemRow db uid key with
    | none => rfl
    | some r =>
      exfalso
      simp only [try_processing, insertRowsAffected, hf, Option.isNone_some,
        if_false, get_saved_response] at htx
      cases hd : decodeIdemRow r <;> simp [hd, Except.map] at htx
  have htx' : tx = ⟨uid, key⟩ := by
    simp only [try_processing, insertRowsAffected, hnone, Option.isNone_none,
      if_true, Nat.lt_irrefl, gt_iff_lt, Nat.zero_lt_one, if_pos,
      Except.ok.injEq, NextAction.StartProcessing.injEq] at htx
    exact htx.symm
  subst htx'
  cases hw : writeHeaders resp.headers with
  | none => simp [save_response, hw] at hsave
  | some recs =>
    simp only [save_response, hw, Option.some.injEq, Prod.mk.injEq] at hsave
    obtain ⟨hdb', hout⟩ := hsave
    subst hout
    refine ⟨rfl, ?_⟩
    have hmap : db.map (fun r =>
        if r.user_id == uid && r.idempotency_key == key then
          { r with response_status_code := some (statusToI16 resp.status),
                   response_headers := some recs,
                   response_body := some resp.body }
        else r) = db :=
      map_id_of_find?_none _ _ db hnone
    rw [List.map_append] at hdb'
    simp only [List.map_cons, List.map_nil] at hdb'
    rw [hmap] at hdb'
    simp only [beq_self_eq_true, Bool.and_self, if_pos] at hdb'
    subst hdb'
    simp only [get_saved_response, findIdemRow]
    rw [find?_append_of_none _ db _ hnone]
    simp only [List.find?, beq_self_eq_true, Bool.and_self]
    rw [decodeIdemRow_saved resp recs uid key hw hnames h1 h2]
    rfl

/-- Witness for C2 at a concrete response (a 303 redirect with a
`location` header and a one-byte body) saved under key "k" for user 1. -/
theorem save_response_get_saved_response_roundtrip_witness :
    ({ status := 303, headers := [("location", [47])], body := [10] } :
        HttpResponse) =
      { status := 303, headers := [("location", [47])], body := [10] } ∧
    get_saved_response
      [{ user_id := 1, idempotency_key := "k",
         response_status_code := some 303,
         response_headers := some [⟨"location", [47]⟩],
         response_body := some [10] }] "k" 1 =
      .ok (some { status := 303, headers := [("location", [47])],
                  body := [10] }) :=
  save_response_get_saved_response_roundtrip [] "k" 1
    { status := 303, headers := [("location", [47])], body := [10] } ⟨1, "k"⟩
    [{ user_id := 1, idempotency_key := "k",
       response_status_code := some 303,
       response_headers := some [⟨"location", [47]⟩],
       response_body := some [10] }]
    { status := 303, headers := [("location", [47])], body := [10] }
    rfl (by decide) (by decide) (by decide) rfl

/-- Claim C3: `try_processing` returns `StartProcessing` carrying the open
transaction exactly when the `INSERT ... ON CONFLICT DO NOTHING` affected
one row (no prior row for the key); when the insert affects no row it
returns `ReturnSavedResponse` with the stored response when the response
columns are populated (and decode), and an error when they are still NULL
because a concurrent request is in flight. -/
theorem try_processing_spec (db : List IdempotencyRow) (key : String)
    (uid : Nat) :
    (findIdemRow db uid key = none →
      insertRowsAffected db uid key = 1 ∧
      try_processing db key uid = .ok (.StartProcessing ⟨uid, key⟩)) ∧
    ((∃ tx, try_processing db key uid = .ok (.StartProcessing tx)) →
      insertRowsAffected db uid key = 1) ∧
    (∀ r, findIdemRow db uid key = some r →
      insertRowsAffected db uid key = 0 ∧
      ((r.response_status_code = none ∨ r.response_headers = none ∨
          r.response_body = none) →
        ∃ e, try_processing db key uid = .error e) ∧
      (∀ resp, decodeIdemRow r = .ok resp →
        try_processing db key uid = .ok (.ReturnSavedResponse resp))) := by
  refine ⟨?_, ?_, ?_⟩
  · intro hnone
    constructor
    · simp [insertRowsAffected, hnone]
    · simp [try_processing, insertRowsAffected, hnone]
  · rintro ⟨tx, htx⟩
    cases hf : findIdemRow db uid key with
    | none => simp [insertRowsAffected, hf]
    | some r =>
      exfalso
      simp only [try_processing, insertRowsAffected, hf, Option.isNone_some,
        if_false, get_saved_response] at htx
      cases hd : decodeIdemRow r <;> simp [hd, Except.map] at htx
  · intro r hf
    refine ⟨by simp [insertRowsAffected, hf], ?_, ?_⟩
    · intro hnull
      have hdec : decodeIdemRow r = .error "saved response columns are NULL" := by
        rcases hnull with h | h | h
        · cases h2 : r.response_headers <;> cases h3 : r.response_body <;>
            simp [decodeIdemRow, h, h2, h3]
        · cases h1 : r.response_status_code <;> cases h3 : r.response_body <;>
            simp [decodeIdemRow, h, h1, h3]
        · cases h1 : r.response_status_code <;> cases h2 : r.response_headers <;>
            simp [decodeIdemRow, h, h1, h2]
      exact ⟨"saved response columns are NULL",
        by simp [try_processing, insertRowsAffected, hf, get_saved_response,
          hdec, Except.map]⟩
    · intro resp hdec
      simp [try_processing, insertRowsAffected, hf, get_saved_response, hdec,
        Except.map]

/-- Witness for C3: a populated row is returned as `ReturnSavedResponse`,
and on an empty table the same key starts processing. -/
theorem try_processing_spec_witness :
    try_processing
      [{ user_id := 1, idempotency_key := "k",
         response_status_code := some 303,
         response_headers := some [⟨"location", [47]⟩],
         response_body := some [10] }] "k" 1 =
      .ok (.ReturnSavedResponse
        { status := 303, headers := [("location", [47])], body := [10] }) ∧
    try_processing [] "k" 1 = .ok (.StartProcessing ⟨1, "k"⟩) :=
  ⟨((try_processing_spec
      [{ user_id := 1, idempotency_key := "k",
         response_status_code := some 303,
         response_headers := some [⟨"location", [47]⟩],
         response_body := some [10] }] "k" 1).2.2
      { user_id := 1, idempotency_key := "k",
        response_status_code := some 303,
        response_headers := some [⟨"location", [47]⟩],
        response_body := some [10] } rfl).2.2
      { status := 303, headers := [("location", [47])], body := [10] }
      rfl,
   ((try_processing_spec [] "k" 1).1 rfl).2⟩

/-! ## Relational store

One structure per table the core touches. -/

/-- A row of the `subscriptions` table. -/
structure SubscriptionRow where
  id : Nat
  email : String
  name : String
  status : String
deriving Repr, DecidableEq

/-- A row of the `users` table. -/
structure UserRow where
  user_id : Nat
  username : String
  password_hash : String
deriving Repr, DecidableEq

/-- A row of the `newsletter_issues` table. -/
structure NewsletterIssueRow where
  newsletter_issue_id : Nat
  title : String
  text_content : String
deriving Repr, DecidableEq

/-- A row of the `issue_delivery_queue` table. -/
structure IssueDeliveryRow where
  newsletter_issue_id : Nat
  subscriber_email : String
deriving Repr, DecidableEq

/-- The relational store. `subscription_tokens` rows are
(`subscription_token`, `subscriber_id`) pairs. -/
structure Db where
  subscriptions : List SubscriptionRow
  subscription_tokens : List (String × Nat)
  users : List UserRow
  idempotency : List IdempotencyRow
  newsletter_issues : List NewsletterIssueRow
  issue_delivery_queue : List IssueDeliveryRow
deriving Repr, DecidableEq

/-- Bytes of an ASCII string (used for header values such as `location`). -/
def strBytes (s : String) : List Nat :=
  s.toList.map Char.toNat

/-- `axum::response::Redirect::to(loc)`: a 303 See Other with a `location`
header and an empty body. -/
def redirectResponse (loc : String) : HttpResponse :=
  { status := 303, headers := [("location", strBytes loc)], body := [] }

/-! ## Publish pipeline (`src/routes/admin/newsletters/post.rs`) -/

/-- Modelled from the spec: the `IdempotencyKey` newtype's
`TryFrom<String>` validation lives in `src/idempotency/mod.rs`, which is
not present under `src/` (only `persistence.rs` is). Per the spec the key
is "required, non-empty, ≤ 64 chars" / "1–64 characters,
operator-supplied". -/
def idempotencyKeyValid (s : String) : Bool :=
  !s.isEmpty && s.length ≤ 64

/-- Errors of the publish handler
(`PublishNewsletterError` in `post.rs`). -/
inductive PublishNewsletterError where
  | FailedToGetConfirmedSubscribers
  | FailedToSendEmail (email : String)
  | InvalidIdempotencyKey
  | UnableToGetSavedResponse (msg : String)
  | FailedToSaveResponseWithIdempotencyKey
deriving Repr, DecidableEq

/-- The `IntoResponse` mapping of `PublishNewsletterError`: 400 for an
invalid idempotency key, 500 for everything else. -/
def PublishNewsletterError.toStatus : PublishNewsletterError → Nat
  | .InvalidIdempotencyKey => 400
  | _ => 500

/-- `get_confirmed_subscribers`: `SELECT email FROM subscriptions WHERE
status = 'confirmed'`, each email re-parsed with `SubscriberEmail::parse`
(the `validator` crate's check is the `validateEmail` parameter); parse
failures are kept as `Err` entries, to be skipped with a warning. -/
def get_confirmed_subscribers (validateEmail : String → Bool) (db : Db) :
    List (Except String String) :=
  (db.subscriptions.filter (fun r => r.status == "confirmed")).map
    (fun r =>
      if validateEmail r.email then .ok r.email
      else .error (r.email ++ " is not a valid subscriber email."))

/-- The send loop of `send_email_to_subscribers`: `Ok` subscribers are
emailed in order (`send_email(&email, &title, &content, &content)`); the
first transport failure aborts the handler; `Err` subscribers are only
logged. Returns the loop outcome and the (recipient, title, content)
triples actually delivered to the transport successfully. -/
def sendLoop (sendOk : String → Bool) (title content : String) :
    List (Except String String) → Except String Unit × List (String × String × String)
  | [] => (.ok (), [])
  | .ok e :: rest =>
    if sendOk e then
      let (r, s) := sendLoop sendOk title content rest
      (r, (e, title, content) :: s)
    else (.error e, [])
  | .error _ :: rest => sendLoop sendOk title content rest

/-- Result of one run of the publish handler: the HTTP-level result, the
store afterwards, and the emails handed to the transport. -/
structure PublishOutcome where
  result : Except PublishNewsletterError HttpResponse
  db : Db
  sent : List (String × String × String)
deriving Repr

/-- `publish_newsletter` (the `/admin/newsletters` POST handler): validate
the idempotency key, run `try_processing`; on `ReturnSavedResponse` hand
the saved response straight back; on `StartProcessing` send the issue to
every confirmed subscriber directly through the email client, build the
303 redirect to `/admin/newsletters`, and persist it with
`save_response` (which commits the transaction). -/
def publish_newsletter (validateEmail sendOk : String → Bool) (db : Db)
    (uid : Nat) (title content key : String) : PublishOutcome :=
  if !(idempotencyKeyValid key) then
    { result := .error .InvalidIdempotencyKey, db := db, sent := [] }
  else
    match try_processing db.idempotency key uid with
    | .error e =>
      { result := .error (.UnableToGetSavedResponse e), db := db, sent := [] }
    | .ok (.ReturnSavedResponse r) =>
      { result := .ok r, db := db, sent := [] }
    | .ok (.StartProcessing tx) =>
      match sendLoop sendOk title content
          (get_confirmed_subscribers validateEmail db) with
      | (.error e, sent) =>
        { result := .error (.FailedToSendEmail e), db := db, sent := sent }
      | (.ok _, sent) =>
        let resp := redirectResponse "/admin/newsletters"
        match save_response db.idempotency tx key uid resp with
        | none =>
          { result := .error .FailedToSaveResponseWithIdempotencyKey,
            db := db, sent := sent }
        | some (idem2, out) =>
          { result := .ok out, db := { db with idempotency := idem2 },
            sent := sent }

/-! ## Delivery worker (`src/issue_delivery_worker.rs`) -/

/-- Outcomes of `try_execute_task`. -/
inductive ExecutionOutcome where
  | TaskCompleted
  | EmptyQueue
deriving Repr, DecidableEq

/-- `dequeue_task`: `SELECT ... FROM issue_delivery_queue FOR UPDATE SKIP
LOCKED LIMIT 1` inside a fresh transaction; in the sequential embedding the
first row of the queue. -/
def dequeue_task (db : Db) : Option IssueDeliveryRow :=
  db.issue_delivery_queue.head?

/-- `get_issue`: `SELECT title, text_content FROM newsletter_issues WHERE
newsletter_issue_id = $1` via `fetch_one` (absence is an error at the call
site). -/
def get_issue (db : Db) (issue_id : Nat) : Option NewsletterIssueRow :=
  db.newsletter_issues.find? (fun i => i.newsletter_issue_id == issue_id)

/-- `delete_task`: `DELETE FROM issue_delivery_queue WHERE
newsletter_issue_id = $1 AND subscriber_email = $2`, then commit. -/
def delete_task (db : Db) (issue_id : Nat) (email : String) : Db :=
  let remaining := db.issue_delivery_queue.filter
    (fun q => !(q.newsletter_issue_id == issue_id &&
                 q.subscriber_email == email))
  { db with issue_delivery_queue := remaining }

/-- `try_execute_task`: dequeue one task (or report `EmptyQueue`); re-parse
the stored subscriber email; when it parses, fetch the issue (a missing
issue row is an infrastructure error that aborts without deleting) and call
the transport, whose failure is only logged; in both the sent and the
invalid-email case the queue row is deleted and `TaskCompleted` returned. -/
def try_execute_task (validateEmail sendOk : String → Bool) (db : Db) :
    Except String (ExecutionOutcome × Db) :=
  match dequeue_task db with
  | none => .ok (.EmptyQueue, db)
  | some task =>
    if validateEmail task.subscriber_email then
      match get_issue db task.newsletter_issue_id with
      | none => .error "newsletter issue not found"
      | some _issue =>
        let _sendSucceeded := sendOk task.subscriber_email
        .ok (.TaskCompleted,
          delete_task db task.newsletter_issue_id task.subscriber_email)
    else
      .ok (.TaskCompleted,
        delete_task db task.newsletter_issue_id task.subscriber_email)

/-! ## Helper lemmas for the publish pipeline and worker -/

theorem try_processing_of_none (db : List IdempotencyRow) (key : String)
    (uid : Nat) (h : findIdemRow db uid key = none) :
    try_processing db key uid = .ok (.StartProcessing ⟨uid, key⟩) := by
  simp [try_processing, insertRowsAffected, h]

theorem try_processing_of_decode (db : List IdempotencyRow) (key : String)
    (uid : Nat) (r : IdempotencyRow) (resp : HttpResponse)
    (hf : findIdemRow db uid key = some r)
    (hd : decodeIdemRow r = .ok resp) :
    try_processing db key uid = .ok (.ReturnSavedResponse resp) := by
  simp [try_processing, insertRowsAffected, hf, get_saved_response, hd,
    Except.map]

theorem sendLoop_all_ok (sendOk : String → Bool) (title content : String)
    (l : List (Except String String)) (h : ∀ e, sendOk e = true) :
    sendLoop sendOk title content l =
      (.ok (), (l.filterMap Except.toOption).map
        (fun e => (e, title, content))) := by
  induction l with
  | nil => rfl
  | cons x rest ih =>
    cases x with
    | ok e => simp [sendLoop, h e, ih, Except.toOption]
    | error e => simp [sendLoop, ih, Except.toOption]

theorem filterMap_toOption_validated (validateEmail : String → Bool)
    (l : List SubscriptionRow) :
    ((l.map (fun r =>
        if validateEmail r.email then (Except.ok r.email : Except String String)
        else .error (r.email ++ " is not a valid subscriber email."))).filterMap
      Except.toOption) =
      (l.filter (fun r => validateEmail r.email)).map (fun r => r.email) := by
  induction l with
  | nil => rfl
  | cons r rest ih =>
    cases hv : validateEmail r.email <;>
      simp [hv, ih, Except.toOption, List.filter_cons]

/-- The idempotency row committed by a successful publish. -/
def savedRedirectRow (uid : Nat) (key : String) : IdempotencyRow :=
  { user_id := uid, idempotency_key := key,
    response_status_code := some (statusToI16 303),
    response_headers := some [⟨"location", strBytes "/admin/newsletters"⟩],
    response_body := some [] }

theorem save_response_redirect (idem : List IdempotencyRow) (uid : Nat)
    (key : String) (hnone : findIdemRow idem uid key = none) :
    save_response idem ⟨uid, key⟩ key uid
        (redirectResponse "/admin/newsletters") =
      some (idem ++ [savedRedirectRow uid key],
            redirectResponse "/admin/newsletters") := by
  have hw : writeHeaders (redirectResponse "/admin/newsletters").headers =
      some [⟨"location", strBytes "/admin/newsletters"⟩] := by decide
  simp only [save_response, hw]
  rw [List.map_append]
  rw [map_id_of_find?_none _ _ idem hnone]
  simp [savedRedirectRow, redirectResponse]

theorem decode_savedRedirectRow (uid : Nat) (key : String) :
    decodeIdemRow (savedRedirectRow uid key) =
      .ok (redirectResponse "/admin/newsletters") :=
  decodeIdemRow_saved (redirectResponse "/admin/newsletters")
    [⟨"location", strBytes "/admin/newsletters"⟩] uid key
    (by decide) (by decide) (by decide) (by decide)

/-! ## Claim theorems for the publish pipeline -/

/-- Store used by the C1 counterexample: one confirmed subscriber, no
prior idempotency row, no newsletter issues, an empty delivery queue. -/
def c1Db : Db :=
  { subscriptions := [{ id := 1, email := "ursula@example.com",
                        name := "Ursula", status := "confirmed" }],
    subscription_tokens := [], users := [],
    idempotency := [], newsletter_issues := [], issue_delivery_queue := [] }

/-- Claim C1 counterexample: on this concrete input `try_processing`
returns `StartProcessing` and the handler succeeds, there is exactly one
confirmed subscriber, and yet the store afterwards holds zero
newsletter-issue rows and zero delivery-queue rows — the claimed "exactly
one newsletter-issue row and one delivery-queue row per confirmed
subscriber" is false; the handler emailed the subscriber directly
instead. -/
theorem publish_newsletter_no_rows_counterexample :
    (publish_newsletter (fun _ => true) (fun _ => true) c1Db 7 "T" "B"
        "key-1").result = .ok (redirectResponse "/admin/newsletters") ∧
    (c1Db.subscriptions.filter (fun r => r.status == "confirmed")).length
      = 1 ∧
    (publish_newsletter (fun _ => true) (fun _ => true) c1Db 7 "T" "B"
        "key-1").db.newsletter_issues.length = 0 ∧
    (publish_newsletter (fun _ => true) (fun _ => true) c1Db 7 "T" "B"
        "key-1").db.issue_delivery_queue.length = 0 ∧
    (publish_newsletter (fun _ => true) (fun _ => true) c1Db 7 "T" "B"
        "key-1").sent = [("ursula@example.com", "T", "B")] :=
  ⟨rfl, rfl, rfl, rfl, rfl⟩

/-- Claim C1 (amended): when `try_processing` returns `StartProcessing`
for an operator's publish request, the handler inserts no newsletter-issue
row and no delivery-queue row; it synchronously sends the issue to exactly
the subscribers whose status is 'confirmed' and whose stored email
re-parses, then commits only the idempotency row; replaying with the same
(`user_id`, `idempotency_key`) returns the saved response and sends no
emails (so a second set of sends is never produced). -/
theorem publish_newsletter_direct_send_and_replay
    (validateEmail sendOk : String → Bool) (db : Db) (uid : Nat)
    (title content key : String) (o o2 : PublishOutcome)
    (hkey : idempotencyKeyValid key = true)
    (hnorow : findIdemRow db.idempotency uid key = none)
    (hsend : ∀ e, sendOk e = true)
    (ho : o = publish_newsletter validateEmail sendOk db uid title content key)
    (ho2 : o2 = publish_newsletter validateEmail sendOk o.db uid title
      content key) :
    o.result = .ok (redirectResponse "/admin/newsletters") ∧
    o.db.newsletter_issues = db.newsletter_issues ∧
    o.db.issue_delivery_queue = db.issue_delivery_queue ∧
    o.sent = ((db.subscriptions.filter (fun r => r.status == "confirmed")).filter
        (fun r => validateEmail r.email)).map
        (fun r => (r.email, title, content)) ∧
    o2.sent = [] ∧
    o2.result = .ok (redirectResponse "/admin/newsletters") ∧
    o2.db = o.db := by
  have hfirst : o =
      { result := .ok (redirectResponse "/admin/newsletters"),
        db := { db with idempotency := db.idempotency ++ [savedRedirectRow uid key] },
        sent := (((db.subscriptions.filter (fun r => r.status == "confirmed")).filter (fun r => validateEmail r.email)).map (fun r => (r.email, title, content))) } := by
    rw [ho]
    simp only [publish_newsletter, hkey, Bool.not_true, Bool.false_eq_true,
      if_false, try_processing_of_none db.idempotency key uid hnorow,
      sendLoop_all_ok sendOk title content _ hsend]
    rw [show (get_confirmed_subscribers validateEmail db).filterMap
        Except.toOption =
        ((db.subscriptions.filter (fun r => r.status == "confirmed")).filter
          (fun r => validateEmail r.email)).map (fun r => r.email) from
      filterMap_toOption_validated validateEmail _]
    rw [save_response_redirect db.idempotency uid key hnorow]
    simp [List.map_map, Function.comp]
  have hfind2 : findIdemRow (db.idempotency ++ [savedRedirectRow uid key])
      uid key = some (savedRedirectRow uid key) := by
    unfold findIdemRow at hnorow ⊢
    rw [find?_append_of_none _ _ _ hnorow]
    simp [savedRedirectRow]
  have hsecond : o2 =
      { result := .ok (redirectResponse "/admin/newsletters"),
        db := o.db, sent := [] } := by
    rw [ho2, hfirst]
    simp only [publish_newsletter, hkey, Bool.not_true, Bool.false_eq_true,
      if_false,
      try_processing_of_decode _ key uid (savedRedirectRow uid key)
        (redirectResponse "/admin/newsletters") hfind2
        (decode_savedRedirectRow uid key)]
  refine ⟨?_, ?_, ?_, ?_, ?_, ?_, ?_⟩ <;>
    simp [hfirst, hsecond]

/-- Witness for the amended C1 at the concrete store of the
counterexample: first publish sends one email and commits only the
idempotency row; the replay sends nothing and returns the saved 303. -/
theorem publish_newsletter_direct_send_and_replay_witness :
    (publish_newsletter (fun _ => true) (fun _ => true) c1Db 7 "T" "B"
        "key-1").result = .ok (redirectResponse "/admin/newsletters") ∧
    (publish_newsletter (fun _ => true) (fun _ => true) c1Db 7 "T" "B"
        "key-1").db.newsletter_issues = c1Db.newsletter_issues ∧
    (publish_newsletter (fun _ => true) (fun _ => true) c1Db 7 "T" "B"
        "key-1").db.issue_delivery_queue = c1Db.issue_delivery_queue ∧
    (publish_newsletter (fun _ => true) (fun _ => true) c1Db 7 "T" "B"
        "key-1").sent =
      ((c1Db.subscriptions.filter (fun r => r.status == "confirmed")).filter
        (fun r => (fun _ => true) r.email)).map
        (fun r => (r.email, "T", "B")) ∧
    (publish_newsletter (fun _ => true) (fun _ => true)
        (publish_newsletter (fun _ => true) (fun _ => true) c1Db 7 "T" "B"
          "key-1").db 7 "T" "B" "key-1").sent = [] ∧
    (publish_newsletter (fun _ => true) (fun _ => true)
        (publish_newsletter (fun _ => true) (fun _ => true) c1Db 7 "T" "B"
          "key-1").db 7 "T" "B" "key-1").result =
      .ok (redirectResponse "/admin/newsletters") ∧
    (publish_newsletter (fun _ => true) (fun _ => true)
        (publish_newsletter (fun _ => true) (fun _ => true) c1Db 7 "T" "B"
          "key-1").db 7 "T" "B" "key-1").db =
      (publish_newsletter (fun _ => true) (fun _ => true) c1Db 7 "T" "B"
        "key-1").db :=
  publish_newsletter_direct_send_and_replay (fun _ => true) (fun _ => true)
    c1Db 7 "T" "B" "key-1" _ _ (by decide) rfl (fun _ => rfl) rfl rfl

/-! ## Claim theorems for the delivery worker -/

/-- Claim C4: for every dequeued task, `try_execute_task` deletes that
queue row and returns `TaskCompleted` regardless of the transport outcome
(success, transient or permanent failure — the `sendOk` oracle is
universally quantified) and also when the stored email fails re-parsing;
it returns `EmptyQueue` exactly when no row could be dequeued. The only
other case, a missing issue row for a valid email, is an infrastructure
error that aborts the run. -/
theorem try_execute_task_spec (validateEmail : String → Bool) (db : Db) :
    (∀ sendOk : String → Bool,
      ((∃ db', try_execute_task validateEmail sendOk db =
          .ok (.EmptyQueue, db')) ↔ db.issue_delivery_queue = [])) ∧
    (∀ task, dequeue_task db = some task →
      (validateEmail task.subscriber_email = false ∨
        (get_issue db task.newsletter_issue_id).isSome = true) →
      ∀ sendOk : String → Bool,
        try_execute_task validateEmail sendOk db =
          .ok (.TaskCompleted,
            delete_task db task.newsletter_issue_id
              task.subscriber_email)) := by
  constructor
  · intro sendOk
    constructor
    · rintro ⟨db', hdb'⟩
      cases hq : db.issue_delivery_queue with
      | nil => rfl
      | cons t rest =>
        exfalso
        have hd : dequeue_task db = some t := by simp [dequeue_task, hq]
        simp only [try_execute_task, hd] at hdb'
        by_cases hv : validateEmail t.subscriber_email = true
        · rw [if_pos hv] at hdb'
          cases hi : get_issue db t.newsletter_issue_id <;>
            simp [hi] at hdb'
        · rw [if_neg hv] at hdb'
          simp at hdb'
    · intro hq
      have hd : dequeue_task db = none := by simp [dequeue_task, hq]
      exact ⟨db, by simp [try_execute_task, hd]⟩
  · intro task hd hcase sendOk
    simp only [try_execute_task, hd]
    rcases hcase with hv | hi
    · rw [if_neg (by simp [hv])]
    · rw [Option.isSome_iff_exists] at hi
      obtain ⟨issue, hissue⟩ := hi
      by_cases hv : validateEmail task.subscriber_email = true
      · rw [if_pos hv, hissue]
      · rw [if_neg hv]

/-- Store used by the C4 witness: one queued task with its issue row. -/
def c4Db : Db :=
  { subscriptions := [], subscription_tokens := [], users := [],
    idempotency := [],
    newsletter_issues := [{ newsletter_issue_id := 1, title := "T",
                            text_content := "B" }],
    issue_delivery_queue := [{ newsletter_issue_id := 1,
                               subscriber_email := "a@b.com" }] }

/-- Witness for C4: with the only send failing, the task row is still
deleted and `TaskCompleted` returned; afterwards the worker reports
`EmptyQueue`. -/
theorem try_execute_task_spec_witness :
    try_execute_task (fun _ => true) (fun _ => false) c4Db =
      .ok (.TaskCompleted, delete_task c4Db 1 "a@b.com") ∧
    (∃ db', try_execute_task (fun _ => true) (fun _ => false)
        (delete_task c4Db 1 "a@b.com") = .ok (.EmptyQueue, db')) :=
  ⟨(try_execute_task_spec (fun _ => true) c4Db).2
      { newsletter_issue_id := 1, subscriber_email := "a@b.com" } rfl
      (Or.inr rfl) (fun _ => false),
   ((try_execute_task_spec (fun _ => true)
      (delete_task c4Db 1 "a@b.com")).1 (fun _ => false)).mpr rfl⟩

/-! ## Password verifier (`src/authorization.rs`, `src/authorization/password.rs`)

The `argon2` crate is an external capability; it is modelled by an
interface carrying the two laws the crate documents: a freshly computed
PHC string parses, and verification of a password against its own hash
succeeds. -/

/-- Interface of the `argon2` crate as used by the source:
`hash_password` (with a random salt), `PasswordHash::new` validity, and
`Argon2::verify_password`. -/
structure Argon2Model where
  hashPassword : String → String → String
  phcValid : String → Bool
  verifyPassword : String → String → Bool
  phcValid_hash : ∀ salt p, phcValid (hashPassword salt p) = true
  verify_hash : ∀ salt p, verifyPassword (hashPassword salt p) p = true

/-- The constant fallback PHC hash of `Credentials::validate_credentials`
(the Rust string literal uses `\`-continuations that strip the leading
whitespace of the following lines). -/
def FALLBACK_PASSWORD_HASH : String :=
  "$argon2id$v=19$m=15000,t=2,p=1$gZiV/M1gPc22ElAH/Jh1Hw$CWOrkoo7oJBQ/iyh7uJ0LO2aLEfrHwTWllSAxT0zRno"

/-- `CredentialsError` of `src/authorization.rs` (payloads other than the
unknown username are dropped). -/
inductive CredentialsError where
  | DbError
  | UnknownUsername (username : String)
  | InvalidPassword
  | FailedToGetExpectedHash
  | UnexpectedError
deriving Repr, DecidableEq

/-- `verify_password_hash`: parse the expected PHC string (failure →
`FailedToGetExpectedHash`), then run Argon2 verification (failure →
`InvalidPassword`). -/
def verify_password_hash (A : Argon2Model)
    (expected_password_hash password_candidate : String) :
    Except CredentialsError Unit :=
  if !(A.phcValid expected_password_hash) then .error .FailedToGetExpectedHash
  else if A.verifyPassword expected_password_hash password_candidate then
    .ok ()
  else .error .InvalidPassword

/-- `get_stored_credentials`: `SELECT user_id, password_hash FROM users
WHERE username = $1` via `fetch_optional`. -/
def get_stored_credentials (users : List UserRow) (username : String) :
    Option (Nat × String) :=
  (users.find? (fun u => u.username == username)).map
    (fun u => (u.user_id, u.password_hash))

/-- The hash `validate_credentials` actually verifies against: the stored
hash when the username exists, the constant fallback otherwise. -/
def expectedHashFor (users : List UserRow) (username : String) : String :=
  match get_stored_credentials users username with
  | some (_, h) => h
  | none => FALLBACK_PASSWORD_HASH

/-- `Credentials::validate_credentials`: look up the stored credentials,
always run `verify_password_hash` (against the fallback when the lookup
found nothing), then resolve the user id (`UnknownUsername` when the
lookup found nothing but verification passed). -/
def validate_credentials (A : Argon2Model) (users : List UserRow)
    (username password : String) : Except CredentialsError Nat :=
  let stored := get_stored_credentials users username
  let user_id := stored.map (fun x => x.1)
  let expected_password_hash :=
    match stored with
    | some (_, h) => h
    | none => FALLBACK_PASSWORD_HASH
  match verify_password_hash A expected_password_hash password with
  | .error e => .error e
  | .ok _ =>
    match user_id with
    | some uid => .ok uid
    | none => .error (.UnknownUsername username)

/-- Rust `String::len`: the UTF-8 byte length. -/
def byteLen (s : String) : Nat :=
  s.data.foldl (fun n c => n + c.utf8Size) 0

/-- `PasswordRequirementError` of `src/authorization/password.rs`. -/
inductive PasswordRequirementError where
  | TooShort
  | TooLong
deriving Repr, DecidableEq

/-- `Password::verify_password_requirements`: collect `TooShort` (byte
length < 12) and `TooLong` (byte length > 128); return the password when
no errors were collected. -/
def verify_password_requirements (password_candidate : String) :
    Except (List PasswordRequirementError) String :=
  let errors :=
    (if byteLen password_candidate < 12 then
      [PasswordRequirementError.TooShort] else []) ++
    (if byteLen password_candidate > 128 then
      [PasswordRequirementError.TooLong] else [])
  if errors.isEmpty then .ok password_candidate else .error errors

/-- `change_password`: compute the Argon2id hash of the validated password
with a fresh salt (`Password::compute_password_hash`), then
`UPDATE users SET password_hash = $1 WHERE user_id = $2`. -/
def change_password (A : Argon2Model) (salt : String) (users : List UserRow)
    (uid : Nat) (password : String) : List UserRow :=
  let password_hash := A.hashPassword salt password
  users.map (fun u =>
    if u.user_id == uid then { u with password_hash := password_hash }
    else u)

theorem find?_username_map (l : List UserRow) (username : String)
    (f : UserRow → UserRow) (hf : ∀ u, (f u).username = u.username) :
    (l.map f).find? (fun u => u.username == username) =
      (l.find? (fun u => u.username == username)).map f := by
  induction l with
  | nil => rfl
  | cons u rest ih =>
    simp only [List.map_cons, List.find?, hf u]
    cases hu : u.username == username with
    | true => rfl
    | false => exact ih

/-! ## Claim theorems for the password verifier -/

/-- Claim C5: `validate_credentials` performs Argon2 verification on every
call — against the stored hash when the username exists and against the
constant fallback PHC hash when it does not — and returns
`InvalidPassword` whenever that verification fails, `UnknownUsername` only
when verification succeeds but no user row was found, and the stored
user id otherwise.  (The expected hash is assumed to parse as a PHC
string, which holds for the constant and for hashes written by
`change_password`.) -/
theorem validate_credentials_spec (A : Argon2Model) (users : List UserRow)
    (username password : String)
    (hphc : A.phcValid (expectedHashFor users username) = true) :
    (get_stored_credentials users username = none →
      expectedHashFor users username = FALLBACK_PASSWORD_HASH) ∧
    (∀ uid h, get_stored_credentials users username = some (uid, h) →
      expectedHashFor users username = h) ∧
    (A.verifyPassword (expectedHashFor users username) password = false →
      validate_credentials A users username password =
        .error .InvalidPassword) ∧
    (A.verifyPassword (expectedHashFor users username) password = true →
      get_stored_credentials users username = none →
      validate_credentials A users username password =
        .error (.UnknownUsername username)) ∧
    (∀ uid h, A.verifyPassword (expectedHashFor users username) password = true →
      get_stored_credentials users username = some (uid, h) →
      validate_credentials A users username password = .ok uid) := by
  refine ⟨?_, ?_, ?_, ?_, ?_⟩
  · intro hnone
    simp [expectedHashFor, hnone]
  · intro uid h hsome
    simp [expectedHashFor, hsome]
  · intro hver
    cases hs : get_stored_credentials users username with
    | none =>
      rw [expectedHashFor, hs] at hphc hver
      simp [validate_credentials, hs, verify_password_hash, hphc, hver]
    | some p =>
      obtain ⟨uid, h⟩ := p
      rw [expectedHashFor, hs] at hphc hver
      simp [validate_credentials, hs, verify_password_hash, hphc, hver]
  · intro hver hnone
    rw [expectedHashFor, hnone] at hphc hver
    simp [validate_credentials, hnone, verify_password_hash, hphc, hver]
  · intro uid h hver hsome
    rw [expectedHashFor, hsome] at hphc hver
    simp [validate_credentials, hsome, verify_password_hash, hphc, hver]

/-- A concrete instance of the Argon2 interface for witnesses: the "hash"
is the password itself and verification is string equality. -/
def trivialArgon2 : Argon2Model where
  hashPassword := fun _salt p => p
  phcValid := fun _ => true
  verifyPassword := fun h p => h == p
  phcValid_hash := fun _ _ => rfl
  verify_hash := fun _ p => by simp

/-- Witness for C5: a stored user authenticates, a wrong password is
`InvalidPassword`, and an unknown username is verified against the
fallback hash and reported as `UnknownUsername` only when that
verification passes. -/
theorem validate_credentials_spec_witness :
    validate_credentials trivialArgon2
      [{ user_id := 7, username := "admin", password_hash := "pw" }]
      "admin" "pw" = .ok 7 ∧
    validate_credentials trivialArgon2
      [{ user_id := 7, username := "admin", password_hash := "pw" }]
      "admin" "nope" = .error .InvalidPassword ∧
    validate_credentials trivialArgon2 [] "ghost" FALLBACK_PASSWORD_HASH =
      .error (.UnknownUsername "ghost") :=
  ⟨(validate_credentials_spec trivialArgon2
      [{ user_id := 7, username := "admin", password_hash := "pw" }]
      "admin" "pw" rfl).2.2.2.2 7 "pw" rfl rfl,
   (validate_credentials_spec trivialArgon2
      [{ user_id := 7, username := "admin", password_hash := "pw" }]
      "admin" "nope" rfl).2.2.1 rfl,
   (validate_credentials_spec trivialArgon2 [] "ghost"
      FALLBACK_PASSWORD_HASH rfl).2.2.2.1 (by rfl) rfl⟩

/-- Claim C9: for every user and every new password accepted by the
password-requirements check (12 to 128 bytes), `change_password(user_id,
new_password)` followed by `validate_credentials(username, new_password)`
succeeds and returns the same user id previously associated with that
username (the first `users` row matching the username, as `fetch_optional`
would return under the unique-username constraint). -/
theorem change_password_validate_credentials_roundtrip
    (A : Argon2Model) (users : List UserRow) (username : String)
    (uid : Nat) (oldHash password salt : String)
    (hreq : verify_password_requirements password = .ok password)
    (hfind : users.find? (fun u => u.username == username) =
      some { user_id := uid, username := username, password_hash := oldHash }) :
    validate_credentials A (change_password A salt users uid password)
      username password = .ok uid := by
  have hmap := find?_username_map users username
    (fun u => if u.user_id == uid then
        { u with password_hash := A.hashPassword salt password } else u)
    (fun u => by cases hu : u.user_id == uid <;> simp [hu])
  have hstored : get_stored_credentials
      (change_password A salt users uid password) username =
      some (uid, A.hashPassword salt password) := by
    simp only [change_password, get_stored_credentials]
    rw [hmap, hfind]
    simp
  simp only [validate_credentials]
  rw [hstored]
  simp [verify_password_hash, A.phcValid_hash, A.verify_hash]

/-- Witness for C9 with the trivial Argon2 instance and a 12-byte
password. -/
theorem change_password_validate_credentials_roundtrip_witness :
    validate_credentials trivialArgon2
      (change_password trivialArgon2 "salt"
        [{ user_id := 7, username := "admin", password_hash := "old" }]
        7 "abcdefghijkl")
      "admin" "abcdefghijkl" = .ok 7 :=
  change_password_validate_credentials_roundtrip trivialArgon2
    [{ user_id := 7, username := "admin", password_hash := "old" }]
    "admin" 7 "old" "abcdefghijkl" "salt" rfl rfl

/-! ## Confirmation service
(`src/routes/subscriptions/subscriptions_confirm.rs`) -/

/-- `ConfirmError` (token payload kept, sqlx sources dropped). -/
inductive ConfirmError where
  | FailedToGetToken
  | FailedToConfirmSubscriber
  | SubscriberNotFoundForToken (token : String)
deriving Repr, DecidableEq

/-- The `IntoResponse` mapping of `ConfirmError`: 401 for an unknown
token, 500 for the database failures. -/
def ConfirmError.toStatus : ConfirmError → Nat
  | .SubscriberNotFoundForToken _ => 401
  | _ => 500

/-- `get_subscriber_id_from_token`: `SELECT subscriber_id FROM
subscription_tokens WHERE subscription_token = $1` via `fetch_optional`. -/
def get_subscriber_id_from_token (db : Db) (subscription_token : String) :
    Option Nat :=
  (db.subscription_tokens.find? (fun t => t.1 == subscription_token)).map
    (fun t => t.2)

/-- `confirm_subscriber`: `UPDATE subscriptions SET status = 'confirmed'
WHERE id = $1`. -/
def confirm_subscriber (db : Db) (subscriber_id : Nat) : Db :=
  let updated := db.subscriptions.map (fun s =>
    if s.id == subscriber_id then { s with status := "confirmed" } else s)
  { db with subscriptions := updated }

/-- `confirm`: resolve the token to a subscriber id (absence →
`SubscriberNotFoundForToken`), then mark the subscriber confirmed and
answer 200. -/
def confirm (db : Db) (subscription_token : String) :
    Except ConfirmError (Nat × Db) :=
  match get_subscriber_id_from_token db subscription_token with
  | none => .error (.SubscriberNotFoundForToken subscription_token)
  | some subscriber_id => .ok (200, confirm_subscriber db subscriber_id)

theorem map_self_comp_self {α : Type} (g : α → α) (hg : ∀ a, g (g a) = g a)
    (l : List α) : (l.map g).map g = l.map g := by
  induction l with
  | nil => rfl
  | cons a rest ih => simp only [List.map_cons, hg a, ih]

theorem confirm_subscriber_idem (db : Db) (sid : Nat) :
    confirm_subscriber (confirm_subscriber db sid) sid =
      confirm_subscriber db sid := by
  simp only [confirm_subscriber]
  rw [map_self_comp_self]
  intro s
  cases hs : s.id == sid <;> simp [hs]

/-- Claim C6: `confirm(token)` returns 401 `SubscriberNotFoundForToken`
when no subscription-token row matches, and otherwise sets the matched
subscriber's status to 'confirmed' and returns 200; invoking `confirm`
again with the same token succeeds and leaves the state unchanged
(still 'confirmed'), so confirmation is idempotent. -/
theorem confirm_spec (db : Db) (token : String) :
    (get_subscriber_id_from_token db token = none →
      confirm db token = .error (.SubscriberNotFoundForToken token) ∧
      (ConfirmError.SubscriberNotFoundForToken token).toStatus = 401) ∧
    (∀ sid, get_subscriber_id_from_token db token = some sid →
      confirm db token = .ok (200, confirm_subscriber db sid) ∧
      (∀ s, s ∈ (confirm_subscriber db sid).subscriptions → s.id = sid →
        s.status = "confirmed") ∧
      confirm (confirm_subscriber db sid) token =
        .ok (200, confirm_subscriber db sid)) := by
  constructor
  · intro hnone
    exact ⟨by simp [confirm, hnone], rfl⟩
  · intro sid hsid
    refine ⟨by simp [confirm, hsid], ?_, ?_⟩
    · intro s hs hid
      simp only [confirm_subscriber, List.mem_map] at hs
      obtain ⟨s0, _, rfl⟩ := hs
      cases h0 : s0.id == sid with
      | true => simp [h0]
      | false =>
        rw [if_neg (by simp [h0])] at hid ⊢
        rw [hid] at h0
        simp at h0
    · have htok : get_subscriber_id_from_token (confirm_subscriber db sid)
          token = some sid := by
        simpa [get_subscriber_id_from_token, confirm_subscriber] using hsid
      simp [confirm, htok, confirm_subscriber_idem]

/-- Store used by the C6 witness. -/
def c6Db : Db :=
  { subscriptions := [{ id := 1, email := "a@b.com", name := "Ann",
                        status := "pending_confirmation" }],
    subscription_tokens := [("tok", 1)], users := [], idempotency := [],
    newsletter_issues := [], issue_delivery_queue := [] }

/-- Witness for C6: an unknown token is a 401, a known one confirms with
200, and a repeat succeeds without further change. -/
theorem confirm_spec_witness :
    (confirm c6Db "missing" = .error (.SubscriberNotFoundForToken "missing") ∧
      (ConfirmError.SubscriberNotFoundForToken "missing").toStatus = 401) ∧
    (confirm c6Db "tok" = .ok (200, confirm_subscriber c6Db 1) ∧
      (∀ s, s ∈ (confirm_subscriber c6Db 1).subscriptions → s.id = 1 →
        s.status = "confirmed") ∧
      confirm (confirm_subscriber c6Db 1) "tok" =
        .ok (200, confirm_subscriber c6Db 1)) :=
  ⟨(confirm_spec c6Db "missing").1 rfl,
   (confirm_spec c6Db "tok").2 1 rfl⟩

/-! ## Subscription service (`src/routes/subscriptions.rs`,
`src/domain/subscriber_name.rs`, `src/domain/subscriber_email.rs`) -/

/-- The characters forbidden by `SubscriberName::parse`. -/
def subscriberNameForbiddenChars : List Char :=
  ['/', '(', ')', '"', '<', '>', '\\', '\x7b', '\x7d']

/-- `SubscriberName::parse`: reject whitespace-only names
(`s.trim().is_empty()`, stated as "every character is whitespace"), names
longer than 256 grapheme clusters (the `unicode-segmentation` cluster
count is modelled as the character count), and names containing a
forbidden character. -/
def subscriberNameParse (s : String) : Except String String :=
  let is_empty_or_whitespace := s.data.all Char.isWhitespace
  let is_too_long := s.data.length > 256
  let contains_forbidden_characters :=
    s.data.any (fun g => subscriberNameForbiddenChars.contains g)
  if is_empty_or_whitespace || is_too_long || contains_forbidden_characters
  then .error (s ++ " is not a valid subscriber name.")
  else .ok s

/-- `SubscriberEmail::parse` over the `validator` crate's email check
(injected as `validateEmail`). -/
def subscriberEmailParse (validateEmail : String → Bool) (s : String) :
    Except String String :=
  if validateEmail s then .ok s
  else .error (s ++ " is not a valid subscriber email.")

/-- A validated new subscriber (`NewSubscriber`). -/
structure NewSubscriber where
  email : String
  name : String
deriving Repr, DecidableEq

/-- `TryFrom<FormData> for NewSubscriber`: parse the name, then the
email. -/
def newSubscriberTryFrom (validateEmail : String → Bool)
    (email name : String) : Except String NewSubscriber :=
  match subscriberNameParse name with
  | .error e => .error e
  | .ok n =>
    match subscriberEmailParse validateEmail email with
    | .error e => .error e
    | .ok m => .ok { email := m, name := n }

/-- `SubscribeError` of `src/routes/subscriptions.rs`. -/
inductive SubscribeError where
  | ValidationError (msg : String)
  | PoolError
  | InsertSubscriberError
  | TransactionCommitError
  | StoreTokenError
  | SendEmailError
deriving Repr, DecidableEq

/-- The `IntoResponse` mapping of `SubscribeError`: 422 for validation,
500 for everything else. -/
def SubscribeError.toStatus : SubscribeError → Nat
  | .ValidationError _ => 422
  | _ => 500

/-- Result of one run of the subscribe handler. -/
structure SubscribeOutcome where
  result : Except SubscribeError Nat
  db : Db
  emailsSent : List String
deriving Repr

/-- `subscribe`: validate the form, then — inside one transaction — insert
the subscriber with status 'pending_confirmation' and the token row,
commit, and only then call the email transport with the confirmation
link.  Failures of the store operations are injected through the `fail*`
flags (a failure before commit leaves the store unchanged); a transport
failure after commit leaves the committed rows in place. -/
def subscribe (validateEmail : String → Bool) (db : Db)
    (email name : String) (subscriber_id : Nat) (subscription_token : String)
    (failPool failInsert failStore failCommit failSend : Bool) :
    SubscribeOutcome :=
  match newSubscriberTryFrom validateEmail email name with
  | .error e =>
    { result := .error (.ValidationError e), db := db, emailsSent := [] }
  | .ok new_subscriber =>
    if failPool then
      { result := .error .PoolError, db := db, emailsSent := [] }
    else if failInsert then
      { result := .error .InsertSubscriberError, db := db, emailsSent := [] }
    else if failStore then
      { result := .error .StoreTokenError, db := db, emailsSent := [] }
    else if failCommit then
      { result := .error .TransactionCommitError, db := db, emailsSent := [] }
    else
      let newSubscriptions := db.subscriptions ++
        [{ id := subscriber_id, email := new_subscriber.email,
           name := new_subscriber.name, status := "pending_confirmation" }]
      let newTokens := db.subscription_tokens ++
        [(subscription_token, subscriber_id)]
      let committed :=
        { db with subscriptions := newSubscriptions,
                  subscription_tokens := newTokens }
      if failSend then
        { result := .error .SendEmailError, db := committed, emailsSent := [] }
      else
        { result := .ok 200, db := committed,
          emailsSent := [new_subscriber.email] }

/-- Claim C7: `subscribe` commits the transaction that inserts the
subscriber (status 'pending_confirmation') and its token row before
calling the email transport; when the confirmation send then fails the
handler returns `SendEmailError` (500) while the committed rows remain in
the store; 200 is returned exactly when validation, both inserts, the
commit, and the send all succeed. -/
theorem subscribe_spec (validateEmail : String → Bool) (db : Db)
    (email name : String) (sid : Nat) (token : String)
    (failPool failInsert failStore failCommit failSend : Bool) :
    (∀ e, newSubscriberTryFrom validateEmail email name = .error e →
      subscribe validateEmail db email name sid token failPool failInsert
          failStore failCommit failSend =
        { result := .error (.ValidationError e), db := db,
          emailsSent := [] } ∧
      (SubscribeError.ValidationError e).toStatus = 422) ∧
    (∀ sub, newSubscriberTryFrom validateEmail email name = .ok sub →
      ((failPool = false ∧ failInsert = false ∧ failStore = false ∧
          failCommit = false ∧ failSend = true) →
        (subscribe validateEmail db email name sid token failPool failInsert
            failStore failCommit failSend).result =
          .error .SendEmailError ∧
        SubscribeError.SendEmailError.toStatus = 500 ∧
        (subscribe validateEmail db email name sid token failPool failInsert
            failStore failCommit failSend).db.subscriptions =
          db.subscriptions ++ [{ id := sid, email := sub.email, name := sub.name, status := "pending_confirmation" }] ∧
        (subscribe validateEmail db email name sid token failPool failInsert
            failStore failCommit failSend).db.subscription_tokens =
          db.subscription_tokens ++ [(token, sid)]) ∧
      ((subscribe validateEmail db email name sid token failPool failInsert
          failStore failCommit failSend).result = .ok 200 ↔
        failPool = false ∧ failInsert = false ∧ failStore = false ∧
          failCommit = false ∧ failSend = false)) := by
  constructor
  · intro e he
    exact ⟨by simp [subscribe, he], rfl⟩
  · intro sub hsub
    constructor
    · rintro ⟨h1, h2, h3, h4, h5⟩
      subst h1; subst h2; subst h3; subst h4; subst h5
      refine ⟨by simp [subscribe, hsub], rfl, ?_, ?_⟩ <;>
        simp [subscribe, hsub]
    · cases failPool <;> cases failInsert <;> cases failStore <;>
        cases failCommit <;> cases failSend <;>
        simp [subscribe, hsub]

/-- The empty store, used by the C7 witness. -/
def c7Db : Db :=
  { subscriptions := [], subscription_tokens := [], users := [],
    idempotency := [], newsletter_issues := [], issue_delivery_queue := [] }

/-- Witness for C7 at a concrete valid form: a transport failure yields
`SendEmailError` with the committed rows present, and the all-success run
returns 200. -/
theorem subscribe_spec_witness :
    ((subscribe (fun _ => true) c7Db "u@e.com" "Ursula" 5 "tok25" false
        false false false true).result = .error .SendEmailError ∧
      SubscribeError.SendEmailError.toStatus = 500 ∧
      (subscribe (fun _ => true) c7Db "u@e.com" "Ursula" 5 "tok25" false
          false false false true).db.subscriptions =
        c7Db.subscriptions ++ [{ id := 5, email := "u@e.com", name := "Ursula", status := "pending_confirmation" }] ∧
      (subscribe (fun _ => true) c7Db "u@e.com" "Ursula" 5 "tok25" false
          false false false true).db.subscription_tokens =
        c7Db.subscription_tokens ++ [("tok25", 5)]) ∧
    (subscribe (fun _ => true) c7Db "u@e.com" "Ursula" 5 "tok25" false
        false false false false).result = .ok 200 :=
  ⟨((subscribe_spec (fun _ => true) c7Db "u@e.com" "Ursula" 5 "tok25"
      false false false false true).2 { email := "u@e.com", name := "Ursula" }
      (by rfl)).1 ⟨rfl, rfl, rfl, rfl, rfl⟩,
   (((subscribe_spec (fun _ => true) c7Db "u@e.com" "Ursula" 5 "tok25"
      false false false false false).2 { email := "u@e.com", name := "Ursula" }
      (by rfl)).2).mpr ⟨rfl, rfl, rfl, rfl, rfl⟩⟩

/-! ## Session adapter (`src/state/session.rs`, `src/require_login.rs`,
`src/routes/login/post.rs`)

The wrapped `tower_sessions::Session` is an external capability: a record
keyed by an opaque session id holding a map from string keys to serialized
values.  Per the crate's semantics, `clear` removes every data entry and
leaves the session id unchanged; `insert` upserts a key; `get::<T>`
deserializes, returning `Err` when the stored value does not deserialize
as `T`. -/

/-- A value stored in a session record: either one that deserializes as a
UUID or an arbitrary other payload. -/
inductive SessionValue where
  | uuid (u : Nat)
  | other (s : String)
deriving Repr, DecidableEq

/-- A session record: its id and its data map. -/
structure SessionState where
  id : Nat
  data : List (String × SessionValue)
deriving Repr, DecidableEq

/-- `tower_sessions` insert: replace the value under the key, or append. -/
def sessionUpsert (k : String) (v : SessionValue) :
    List (String × SessionValue) → List (String × SessionValue)
  | [] => [(k, v)]
  | (k0, v0) :: rest =>
    if k0 == k then (k0, v) :: rest else (k0, v0) :: sessionUpsert k v rest

/-- `Session::regenerate` (`src/state/session.rs`): implemented as
`self.0.clear()`, which empties the data map of the record; the session
id is untouched. -/
def Session.regenerate (s : SessionState) : SessionState :=
  { s with data := [] }

/-- `Session::insert_user_id`: `self.0.insert("user_id", user_id)`. -/
def Session.insert_user_id (s : SessionState) (user_id : Nat) : SessionState :=
  { s with data := sessionUpsert "user_id" (.uuid user_id) s.data }

/-- `Session::get_user_id`:
`self.0.get::<Uuid>("user_id").ok().flatten()` — a deserialization error
is collapsed to `None`, as is an absent key. -/
def Session.get_user_id (s : SessionState) : Option Nat :=
  match s.data.find? (fun kv => kv.1 == "user_id") with
  | some (_, .uuid u) => some u
  | some (_, .other _) => none
  | none => none

/-- Lines 58–64 of `src/routes/login/post.rs`: after credentials
validate, the handler runs `session.regenerate()` and then
`session.insert_user_id(user_id)`, in that order. -/
def login_session_update (s : SessionState) (user_id : Nat) : SessionState :=
  Session.insert_user_id (Session.regenerate s) user_id

/-- Claim C8 evaluated at the failing input: a live session with id 42
and stored state.  The login-success sequence runs `regenerate()` before
`insert_user_id`, and `regenerate()` does discard all previously stored
state — but the session id is NOT replaced: it is still 42, because
`regenerate` is implemented with `tower_sessions`' `clear`, which never
rotates the id the session-fixation contract requires. -/
theorem login_regenerate_keeps_session_id :
    Session.regenerate
        { id := 42, data := [("user_id", .uuid 9), ("junk", .other "x")] } =
      { id := 42, data := [] } ∧
    (Session.regenerate
        { id := 42, data := [("user_id", .uuid 9), ("junk", .other "x")] }).id =
      ({ id := 42, data := [("user_id", .uuid 9), ("junk", .other "x")] } :
        SessionState).id ∧
    login_session_update
        { id := 42, data := [("user_id", .uuid 9), ("junk", .other "x")] } 7 =
      { id := 42, data := [("user_id", .uuid 7)] } :=
  ⟨rfl, rfl, rfl⟩

/-! ## Login requirement (`src/require_login.rs`) -/

/-- `AuthorizedUserError`. -/
inductive AuthorizedUserError where
  | Unexpected
  | NotLoggedIn
deriving Repr, DecidableEq

/-- `get_username` (`src/service/user.rs` semantics as used by
`require_login.rs`): `SELECT username FROM users WHERE user_id = $1`. -/
def get_username (users : List UserRow) (user_id : Nat) : Option String :=
  (users.find? (fun u => u.user_id == user_id)).map (fun u => u.username)

/-- `AuthorizedUser::from_request_parts`: extract the session, read the
user id (`None` → `NotLoggedIn`), then resolve the username (a database
failure → `Unexpected`). -/
def authorized_user_from_request (users : List UserRow) (s : SessionState) :
    Except AuthorizedUserError (Nat × String) :=
  match Session.get_user_id s with
  | none => .error .NotLoggedIn
  | some user_id =>
    match get_username users user_id with
    | none => .error .Unexpected
    | some username => .ok (user_id, username)

/-- The `IntoResponse` mapping of `AuthorizedUserError`: `Unexpected` is a
500; `NotLoggedIn` is `Redirect::to("/login")`. -/
def AuthorizedUserError.into_response : AuthorizedUserError → HttpResponse
  | .Unexpected => { status := 500, headers := [], body := [] }
  | .NotLoggedIn => redirectResponse "/login"

/-- Claim C10: for every session whose stored payload misses the
`user_id` key or holds a value that does not deserialize as a UUID,
`get_user_id()` returns `None` rather than an error, so the admin-route
extractor rejects the request as `NotLoggedIn`, whose response is the 303
redirect to `/login` — not a 500. -/
theorem get_user_id_garbage_redirects (users : List UserRow)
    (s : SessionState) :
    (s.data.find? (fun kv => kv.1 == "user_id") = none →
      Session.get_user_id s = none) ∧
    (∀ k v, s.data.find? (fun kv => kv.1 == "user_id") = some (k, .other v) →
      Session.get_user_id s = none) ∧
    (Session.get_user_id s = none →
      authorized_user_from_request users s = .error .NotLoggedIn ∧
      AuthorizedUserError.NotLoggedIn.into_response =
        redirectResponse "/login" ∧
      AuthorizedUserError.NotLoggedIn.into_response.status = 303) := by
  refine ⟨?_, ?_, ?_⟩
  · intro hnone
    simp [Session.get_user_id, hnone]
  · intro k v hfound
    simp [Session.get_user_id, hfound]
  · intro hid
    exact ⟨by simp [authorized_user_from_request, hid], rfl, rfl⟩

/-- Witness for C10: a session with a non-UUID payload under `user_id`
and a session without the key both redirect to `/login`. -/
theorem get_user_id_garbage_redirects_witness :
    Session.get_user_id
      { id := 1, data := [("user_id", .other "not-a-uuid")] } = none ∧
    authorized_user_from_request
      [{ user_id := 7, username := "admin", password_hash := "h" }]
      { id := 1, data := [("user_id", .other "not-a-uuid")] } =
        .error .NotLoggedIn ∧
    Session.get_user_id ({ id := 2, data := [] } : SessionState) = none ∧
    AuthorizedUserError.NotLoggedIn.into_response.status = 303 :=
  ⟨(get_user_id_garbage_redirects
      [{ user_id := 7, username := "admin", password_hash := "h" }]
      { id := 1, data := [("user_id", .other "not-a-uuid")] }).2.1
      "user_id" "not-a-uuid" rfl,
   ((get_user_id_garbage_redirects
      [{ user_id := 7, username := "admin", password_hash := "h" }]
      { id := 1, data := [("user_id", .other "not-a-uuid")] }).2.2
      ((get_user_id_garbage_redirects
        [{ user_id := 7, username := "admin", password_hash := "h" }]
        { id := 1, data := [("user_id", .other "not-a-uuid")] }).2.1
        "user_id" "not-a-uuid" rfl)).1,
   (get_user_id_garbage_redirects []
      ({ id := 2, data := [] } : SessionState)).1 rfl,
   rfl⟩

end ZeroTwoProd
